import Mathlib

/-!
Verification of the btrfs collector (`collector/btrfs_linux.go`) of
`silkeh/node_exporter`.

The collector reads btrfs filesystem statistics (one `Stats` snapshot per
filesystem) and flattens each snapshot into a list of labeled gauge metrics.
The statistics source (the `procfs/btrfs` library) and the prometheus client
library are external collaborators: the snapshot data model is embedded here
with three allocation categories, each with up to seven optional layout
records; the category records are kept as `Option` values because the Go
code receives them as possibly-nil pointers and dereferences them without a
check. The source's device collection is a Go map with string keys (the
range at lines 89-96 uses the key as the device label value), so its
iteration order is unspecified and randomized: `Stats.Devices` below holds
the map's entries in one observed iteration order, and two `Stats` values
whose `Devices` lists are permutations of each other represent the same
device map observed by two range passes. Order-sensitive statements are
therefore quantified over such permutations.

Go `uint64`/`int` statistics are converted with `float64(·)` before emission;
this conversion is modelled by `float64OfNat`, which maps a natural number to
the rational value of the nearest IEEE 754 binary64 (round to nearest, ties
to even, 53-bit significand; every `uint64` is finite in binary64 range).
A nil-pointer dereference (Go panic) is modelled by `Option.none` results.
-/

/-- Rational value of the IEEE 754 binary64 (`float64`) nearest to `n`:
numbers below `2 ^ 53` are represented exactly; larger ones are rounded to
53 significant bits, round to nearest, ties to even. Models Go `float64(n)`
for non-negative integer `n`. -/
def float64OfNat (n : Nat) : Rat :=
  if n < 2 ^ 53 then (n : Rat)
  else
    let e := Nat.log2 n - 52
    let q := n / 2 ^ e
    let r := n % 2 ^ e
    let half := 2 ^ (e - 1)
    let q2 := if half < r ∨ (r = half ∧ q % 2 = 1) then q + 1 else q
    (q2 : Rat) * 2 ^ e

/-- One btrfs layout usage record (`procfs/btrfs.LayoutUsage`): used bytes,
total bytes and the (already floating-point) allocation ratio. -/
structure LayoutUsage where
  UsedBytes : Nat
  TotalBytes : Nat
  Ratio : Rat
deriving DecidableEq

/-- Allocation statistics of one category (`procfs/btrfs.AllocationStats`):
reserved bytes plus one optional record per redundancy layout. A `none`
layout models a nil `*LayoutUsage` pointer. -/
structure AllocationStats where
  ReservedBytes : Nat
  Single : Option LayoutUsage
  Dup : Option LayoutUsage
  Raid0 : Option LayoutUsage
  Raid1 : Option LayoutUsage
  Raid5 : Option LayoutUsage
  Raid6 : Option LayoutUsage
  Raid10 : Option LayoutUsage
deriving DecidableEq

/-- Allocation record of a snapshot (`procfs/btrfs.Allocation`): the global
reserve size and the three category pointers; `none` models a nil
`*AllocationStats` pointer. -/
structure Allocation where
  GlobalRsvSize : Nat
  Data : Option AllocationStats
  Metadata : Option AllocationStats
  System : Option AllocationStats
deriving DecidableEq

/-- One device of the filesystem (`procfs/btrfs.Device`). -/
structure Device where
  Size : Nat
deriving DecidableEq

/-- One filesystem snapshot (`procfs/btrfs.Stats`). The source's `Devices`
field is a Go map from device name to device, iterated with `range`; since
Go map iteration order is unspecified and randomized, `Devices` here is the
association list of the map's entries in one observed iteration order, and
any permutation of it represents the same map value. -/
structure Stats where
  Label : String
  UUID : String
  Devices : List (String × Device)
  Allocation : Allocation
deriving DecidableEq

/-- The flat metric descriptor `btrfsMetric` of the source: name suffix,
help text, value, extra label names and extra label values. -/
structure btrfsMetric where
  name : String
  desc : String
  value : Rat
  extraLabel : List String
  extraLabelValue : List String
deriving DecidableEq

/-- Source `getLayoutStats`: an absent (nil) layout record yields no
metrics; a present one yields `used_bytes`, `total_bytes` and `ratio`,
each labeled with the category name `a` and the layout name `l`. -/
def getLayoutStats (a l : String) (s : Option LayoutUsage) : List btrfsMetric :=
  match s with
  | none => []
  | some u =>
    [⟨"used_bytes", "Amount of used space by a layout/data type",
      float64OfNat u.UsedBytes, ["type", "mode"], [a, l]⟩,
     ⟨"total_bytes", "Amount of space allocated for a layout/data type",
      float64OfNat u.TotalBytes, ["type", "mode"], [a, l]⟩,
     ⟨"ratio", "Data allocation ratio for a layout/data type",
      u.Ratio, ["type", "mode"], [a, l]⟩]

/-- Source `getAllocationStats`: dereferences the category pointer (a nil
pointer panics, modelled by `none`), emits the `reserved_bytes` metric and
then the layout metrics in the fixed order single, dup, raid0, raid1,
raid5, raid6, raid10. -/
def getAllocationStats (a : String) (s : Option AllocationStats) :
    Option (List btrfsMetric) :=
  match s with
  | none => none
  | some c =>
    some ([⟨"reserved_bytes", "Amount of space reserved for a data type",
            float64OfNat c.ReservedBytes, ["type"], [a]⟩]
      ++ getLayoutStats a "single" c.Single
      ++ getLayoutStats a "dup" c.Dup
      ++ getLayoutStats a "raid0" c.Raid0
      ++ getLayoutStats a "raid1" c.Raid1
      ++ getLayoutStats a "raid5" c.Raid5
      ++ getLayoutStats a "raid6" c.Raid6
      ++ getLayoutStats a "raid10" c.Raid10)

/-- Metric-list construction of source `updateBtrfsStats` (the part before
the emission loop): `device_count` and `global_rsv_size_bytes`, one
`device_size` per device in the observed device-map iteration order, then
the three categories in the fixed order data, metadata, system. `none`
models the panic on a nil category pointer. -/
def buildBtrfsMetrics (s : Stats) : Option (List btrfsMetric) :=
  let base : List btrfsMetric :=
    [⟨"device_count", "Number of devices that are part of the filesystem.",
      float64OfNat s.Devices.length, [], []⟩,
     ⟨"global_rsv_size_bytes", "Size of global reserve.",
      float64OfNat s.Allocation.GlobalRsvSize, [], []⟩]
    ++ s.Devices.map (fun p =>
        ⟨"device_size", "Size of a device that is part of the filesystem.",
         float64OfNat p.2.Size, ["device"], [p.1]⟩)
  match getAllocationStats "data" s.Allocation.Data with
  | none => none
  | some dataMs =>
    match getAllocationStats "metadata" s.Allocation.Metadata with
    | none => none
    | some metaMs =>
      match getAllocationStats "system" s.Allocation.System with
      | none => none
      | some sysMs => some (base ++ dataMs ++ metaMs ++ sysMs)

/-- Modelled from the spec: the exporter-wide metric namespace constant of
the collector package (`namespace`), which is outside the given source
file; the spec fixes the naming convention as
`<namespace>_btrfs_<metric-name>`. -/
def namespaceStr : String := "node"

/-- Embedding of `prometheus.BuildFQName` (external collaborator): joins
the non-empty parts of namespace, subsystem and name with underscores. -/
def buildFQName (ns sub n : String) : String :=
  if n = "" then ""
  else if ns ≠ "" ∧ sub ≠ "" then ns ++ "_" ++ sub ++ "_" ++ n
  else if ns ≠ "" then ns ++ "_" ++ n
  else if sub ≠ "" then sub ++ "_" ++ n
  else n

/-- The base label names of source `updateBtrfsStats` (`devLabels`). -/
def devLabels : List String := ["label", "uuid"]

/-- A fully bound metric emission, as written to the output channel by
`prometheus.MustNewConstMetric`: fully-qualified name, help text, label
names, label values and gauge value. -/
structure Metric where
  fqName : String
  desc : String
  labelNames : List String
  labelValues : List String
  value : Rat
deriving DecidableEq

/-- Body of the emission loop of source `updateBtrfsStats`: appends the
metric's extra labels after the base labels, and the extra label values
after the snapshot's label and uuid (the Go code guards the second append
with a length check, which is reproduced here). -/
def bindMetric (s : Stats) (m : btrfsMetric) : Metric :=
  let labels := devLabels ++ m.extraLabel
  let labelValues :=
    if 0 < m.extraLabelValue.length
    then [s.Label, s.UUID] ++ m.extraLabelValue
    else [s.Label, s.UUID]
  ⟨buildFQName namespaceStr "btrfs" m.name, m.desc, labels, labelValues, m.value⟩

/-- Source `updateBtrfsStats`: builds the flat metric list for one snapshot
and emits every metric, bound with the snapshot's labels, in list order.
`none` models the panic on a nil category pointer. -/
def updateBtrfsStats (s : Stats) : Option (List Metric) :=
  (buildBtrfsMetrics s).map (List.map (bindMetric s))

/-- The statistics-source handle (`btrfs.FS`, external collaborator): its
only capability used here is `Stats()`, returning either the snapshot
sequence or a read error. -/
structure FS where
  stats : Except String (List Stats)

/-- The collector (`btrfsCollector`): holds the statistics-source handle. -/
structure btrfsCollector where
  fs : FS

/-- Source `NewBtrfsCollector`, parameterized by the result of the external
`btrfs.NewFS(*sysPath)` call: wraps an open failure, otherwise returns the
collector holding the handle. -/
def NewBtrfsCollector (newFSResult : Except String FS) :
    Except String btrfsCollector :=
  match newFSResult with
  | Except.error e => Except.error ("failed to open sysfs: " ++ e)
  | Except.ok fs => Except.ok ⟨fs⟩

/-- Source `Update`: obtains the snapshots from the statistics source,
wrapping a read error; on success flattens every snapshot in sequence
order and writes every resulting metric to the channel. The outer `Option`
models the panic on a nil category pointer. -/
def Update (c : btrfsCollector) : Option (Except String (List Metric)) :=
  match c.fs.stats with
  | Except.error e =>
    some (Except.error ("failed to retrieve Btrfs stats: " ++ e))
  | Except.ok stats =>
    (stats.mapM updateBtrfsStats).map (fun ls => Except.ok ls.flatten)

/-! Sample data, following the spec's worked example extended with a second
device and a second present layout. -/

/-- Sample present layout record (used 5, total 20, ratio 0.25). -/
def sampleLayout : LayoutUsage := ⟨5, 20, (1 : Rat) / 4⟩

/-- Sample second present layout record. -/
def sampleRaid1 : LayoutUsage := ⟨7, 14, 2⟩

/-- Sample data category: layouts single and raid1 present, others absent. -/
def sampleData : AllocationStats :=
  ⟨10, some sampleLayout, none, none, some sampleRaid1, none, none, none⟩

/-- Sample category with no layouts present. -/
def sampleEmptyAlloc : AllocationStats :=
  ⟨0, none, none, none, none, none, none, none⟩

/-- Sample snapshot with two devices. -/
def sampleStats : Stats :=
  ⟨"vol1", "abc", [("sda", ⟨100⟩), ("sdb", ⟨200⟩)],
   ⟨50, some sampleData, some sampleEmptyAlloc, some sampleEmptyAlloc⟩⟩

/-- The sample snapshot's device map observed in the other iteration
order: same label, uuid, allocation and device entries as `sampleStats`,
devices permuted. -/
def sampleStatsSwapped : Stats :=
  ⟨"vol1", "abc", [("sdb", ⟨200⟩), ("sda", ⟨100⟩)],
   ⟨50, some sampleData, some sampleEmptyAlloc, some sampleEmptyAlloc⟩⟩

/-- The metric emissions of the sample snapshot. -/
def sampleMetrics : List Metric := (updateBtrfsStats sampleStats).getD []

/-- Number of present (non-nil) layout records of a category. -/
def presentLayouts (c : AllocationStats) : Nat :=
  (if c.Single.isSome then 1 else 0) + (if c.Dup.isSome then 1 else 0)
    + (if c.Raid0.isSome then 1 else 0) + (if c.Raid1.isSome then 1 else 0)
    + (if c.Raid5.isSome then 1 else 0) + (if c.Raid6.isSome then 1 else 0)
    + (if c.Raid10.isSome then 1 else 0)

/-! Helper lemmas. -/

lemma length_getLayoutStats (a l : String) (o : Option LayoutUsage) :
    (getLayoutStats a l o).length = if o.isSome then 3 else 0 := by
  cases o <;> rfl

lemma three_mul_ind (b : Bool) :
    (if b then 3 else 0) = 3 * (if b then 1 else 0) := by
  cases b <;> simp

lemma length_getAllocationStats (a : String) (c : AllocationStats)
    (L : List btrfsMetric) (h : getAllocationStats a (some c) = some L) :
    L.length = 1 + 3 * presentLayouts c := by
  have hL : L = [⟨"reserved_bytes", "Amount of space reserved for a data type",
            float64OfNat c.ReservedBytes, ["type"], [a]⟩]
      ++ getLayoutStats a "single" c.Single
      ++ getLayoutStats a "dup" c.Dup
      ++ getLayoutStats a "raid0" c.Raid0
      ++ getLayoutStats a "raid1" c.Raid1
      ++ getLayoutStats a "raid5" c.Raid5
      ++ getLayoutStats a "raid6" c.Raid6
      ++ getLayoutStats a "raid10" c.Raid10 := by
    have := h
    simp only [getAllocationStats] at this
    exact (Option.some.inj this).symm
  subst hL
  simp only [List.length_append, length_getLayoutStats, List.length_singleton,
    presentLayouts, three_mul_ind]
  ring

lemma bindMetric_labelNames (s : Stats) (m : btrfsMetric) :
    (bindMetric s m).labelNames = ["label", "uuid"] ++ m.extraLabel := rfl

lemma bindMetric_labelValues (s : Stats) (m : btrfsMetric) :
    (bindMetric s m).labelValues = [s.Label, s.UUID] ++ m.extraLabelValue := by
  cases h : m.extraLabelValue with
  | nil => simp [bindMetric, h]
  | cons x xs => simp [bindMetric, h]

/-- Claim C4: an absent layout record yields zero metrics; a present one
yields exactly the three metrics used_bytes, total_bytes and ratio, each
with extra labels type = category name and mode = layout name, and values
taken from the record's used bytes, total bytes and ratio fields. -/
theorem btrfs_layout_present_absent (a l : String) :
    getLayoutStats a l none = [] ∧
    ∀ u : LayoutUsage, getLayoutStats a l (some u) =
      [⟨"used_bytes", "Amount of used space by a layout/data type",
        float64OfNat u.UsedBytes, ["type", "mode"], [a, l]⟩,
       ⟨"total_bytes", "Amount of space allocated for a layout/data type",
        float64OfNat u.TotalBytes, ["type", "mode"], [a, l]⟩,
       ⟨"ratio", "Data allocation ratio for a layout/data type",
        u.Ratio, ["type", "mode"], [a, l]⟩] :=
  ⟨rfl, fun _ => rfl⟩

/-- Claim C8: the constructor wraps an open failure of the statistics
source in a "failed to open" error, and otherwise returns a collector
holding the opened handle. -/
theorem btrfs_new_collector :
    (∀ e : String, NewBtrfsCollector (Except.error e) =
      Except.error ("failed to open sysfs: " ++ e)) ∧
    ∀ fs : FS, NewBtrfsCollector (Except.ok fs) = Except.ok ⟨fs⟩ :=
  ⟨fun _ => rfl, fun _ => rfl⟩

/-- Claim C9: the flattening succeeds (does not hit the nil-pointer panic)
exactly when the three category pointers data, metadata and system are all
non-nil; a nil layout record, by contrast, is handled and yields no
metrics. -/
theorem btrfs_nil_category_safety (s : Stats) :
    ((updateBtrfsStats s).isSome ↔
      s.Allocation.Data.isSome ∧ s.Allocation.Metadata.isSome
        ∧ s.Allocation.System.isSome) ∧
    ∀ a l, getLayoutStats a l none = [] := by
  refine ⟨?_, fun _ _ => rfl⟩
  obtain ⟨lb, uu, dv, g, od, om, os⟩ := s
  cases od <;> cases om <;> cases os <;>
    simp [updateBtrfsStats, buildBtrfsMetrics, getAllocationStats]

/-- Claim C6: collection returns the wrapped retrieval error exactly when
the statistics source fails, emitting nothing in that case; on success it
flattens every snapshot in sequence order, emits every resulting metric
and returns no error. -/
theorem btrfs_update_error_handling :
    (∀ (c : btrfsCollector) (e : String), c.fs.stats = Except.error e →
      Update c = some (Except.error ("failed to retrieve Btrfs stats: " ++ e))) ∧
    (∀ (c : btrfsCollector) (snaps : List Stats) (mss : List (List Metric)),
      c.fs.stats = Except.ok snaps →
      snaps.mapM updateBtrfsStats = some mss →
      Update c = some (Except.ok mss.flatten)) ∧
    ∀ (c : btrfsCollector) (ms : List Metric),
      Update c = some (Except.ok ms) →
      ∃ snaps, c.fs.stats = Except.ok snaps := by
  refine ⟨?_, ?_, ?_⟩
  · intro c e h
    simp [Update, h]
  · intro c snaps mss h hmap
    simp only [Update, h]
    rw [hmap]
    rfl
  · intro c ms h
    cases hst : c.fs.stats with
    | error e => simp [Update, hst] at h
    | ok snaps => exact ⟨snaps, rfl⟩

/-- Witness for C6: a failing statistics source at a concrete collector. -/
theorem btrfs_update_error_handling_witness :
    Update ⟨⟨Except.error "boom"⟩⟩ =
      some (Except.error ("failed to retrieve Btrfs stats: " ++ "boom")) :=
  btrfs_update_error_handling.1 ⟨⟨Except.error "boom"⟩⟩ "boom" rfl

lemma getAllocationStats_some_eq (a : String) (c : AllocationStats)
    (L : List btrfsMetric) (h : getAllocationStats a (some c) = some L) :
    L = [⟨"reserved_bytes", "Amount of space reserved for a data type",
          float64OfNat c.ReservedBytes, ["type"], [a]⟩]
      ++ getLayoutStats a "single" c.Single
      ++ getLayoutStats a "dup" c.Dup
      ++ getLayoutStats a "raid0" c.Raid0
      ++ getLayoutStats a "raid1" c.Raid1
      ++ getLayoutStats a "raid5" c.Raid5
      ++ getLayoutStats a "raid6" c.Raid6
      ++ getLayoutStats a "raid10" c.Raid10 := by
  simp only [getAllocationStats] at h
  exact (Option.some.inj h).symm

lemma buildBtrfsMetrics_inv {s : Stats} {bms : List btrfsMetric}
    (h : buildBtrfsMetrics s = some bms) :
    ∃ dataMs metaMs sysMs,
      getAllocationStats "data" s.Allocation.Data = some dataMs ∧
      getAllocationStats "metadata" s.Allocation.Metadata = some metaMs ∧
      getAllocationStats "system" s.Allocation.System = some sysMs ∧
      bms = ([⟨"device_count", "Number of devices that are part of the filesystem.",
            float64OfNat s.Devices.length, [], []⟩,
          ⟨"global_rsv_size_bytes", "Size of global reserve.",
            float64OfNat s.Allocation.GlobalRsvSize, [], []⟩]
        ++ s.Devices.map (fun p =>
            ⟨"device_size", "Size of a device that is part of the filesystem.",
             float64OfNat p.2.Size, ["device"], [p.1]⟩))
        ++ dataMs ++ metaMs ++ sysMs := by
  simp only [buildBtrfsMetrics] at h
  cases hd : getAllocationStats "data" s.Allocation.Data with
  | none => rw [hd] at h; simp at h
  | some dataMs =>
    rw [hd] at h
    cases hm : getAllocationStats "metadata" s.Allocation.Metadata with
    | none => rw [hm] at h; simp at h
    | some metaMs =>
      rw [hm] at h
      cases hs : getAllocationStats "system" s.Allocation.System with
      | none => rw [hs] at h; simp at h
      | some sysMs =>
        rw [hs] at h
        exact ⟨dataMs, metaMs, sysMs, rfl, rfl, rfl, (Option.some.inj h).symm⟩

lemma shape_of_mem_layout {a l : String} {o : Option LayoutUsage}
    {m : btrfsMetric} (hm : m ∈ getLayoutStats a l o) :
    m.extraLabel.length = m.extraLabelValue.length ∧
      (m.name = "ratio" ∨ ∃ n : Nat, m.value = float64OfNat n) := by
  cases o with
  | none => simp [getLayoutStats] at hm
  | some u =>
    simp only [getLayoutStats, List.mem_cons, List.not_mem_nil, or_false] at hm
    rcases hm with h | h | h <;> subst h
    · exact ⟨rfl, Or.inr ⟨u.UsedBytes, rfl⟩⟩
    · exact ⟨rfl, Or.inr ⟨u.TotalBytes, rfl⟩⟩
    · exact ⟨rfl, Or.inl rfl⟩

lemma shape_of_mem_alloc {a : String} {co : Option AllocationStats}
    {L : List btrfsMetric} (h : getAllocationStats a co = some L)
    {m : btrfsMetric} (hm : m ∈ L) :
    m.extraLabel.length = m.extraLabelValue.length ∧
      (m.name = "ratio" ∨ ∃ n : Nat, m.value = float64OfNat n) := by
  cases co with
  | none => simp [getAllocationStats] at h
  | some c =>
    rw [getAllocationStats_some_eq a c L h] at hm
    simp only [List.mem_append, List.mem_cons, List.not_mem_nil, or_false] at hm
    rcases hm with ((((((hr | hx) | hx) | hx) | hx) | hx) | hx) | hx
    · exact hr ▸ ⟨rfl, Or.inr ⟨c.ReservedBytes, rfl⟩⟩
    all_goals exact shape_of_mem_layout hx

lemma shape_of_mem_build {s : Stats} {bms : List btrfsMetric}
    (h : buildBtrfsMetrics s = some bms) {m : btrfsMetric} (hm : m ∈ bms) :
    m.extraLabel.length = m.extraLabelValue.length ∧
      (m.name = "ratio" ∨ ∃ n : Nat, m.value = float64OfNat n) := by
  obtain ⟨dM, mM, sM, hgd, hgm, hgs, rfl⟩ := buildBtrfsMetrics_inv h
  rcases List.mem_append.1 hm with hm1 | hsM
  · rcases List.mem_append.1 hm1 with hm2 | hmM
    · rcases List.mem_append.1 hm2 with hbase | hdM
      · rcases List.mem_append.1 hbase with hlit | hdev
        · simp only [List.mem_cons, List.not_mem_nil, or_false] at hlit
          rcases hlit with hx | hx <;> subst hx
          · exact ⟨rfl, Or.inr ⟨s.Devices.length, rfl⟩⟩
          · exact ⟨rfl, Or.inr ⟨s.Allocation.GlobalRsvSize, rfl⟩⟩
        · rcases List.mem_map.1 hdev with ⟨p, hp, hx⟩
          subst hx
          exact ⟨rfl, Or.inr ⟨p.2.Size, rfl⟩⟩
      · exact shape_of_mem_alloc hgd hdM
    · exact shape_of_mem_alloc hgm hmM
  · exact shape_of_mem_alloc hgs hsM

/-- Claim C10: every non-ratio metric value is the 64-bit floating-point
conversion of an integer statistic, and that conversion is exact for every
integer strictly below 2 ^ 53 (larger values may be rounded). -/
theorem btrfs_float64_conversion (s : Stats) (bms : List btrfsMetric)
    (h : buildBtrfsMetrics s = some bms) :
    (∀ m ∈ bms, m.name = "ratio" ∨ ∃ n : Nat, m.value = float64OfNat n) ∧
    ∀ n : Nat, n < 2 ^ 53 → float64OfNat n = (n : Rat) := by
  refine ⟨fun m hm => (shape_of_mem_build h hm).2, fun n hn => ?_⟩
  unfold float64OfNat
  rw [if_pos hn]

/-- Witness for C10: the sample snapshot flattens, and the conversion is
exact at 100. -/
theorem btrfs_float64_conversion_witness : float64OfNat 100 = (100 : Rat) :=
  (btrfs_float64_conversion sampleStats
    ((buildBtrfsMetrics sampleStats).getD []) rfl).2 100 (by norm_num)

/-- Claim C7: every emitted metric has as many label values as label
names, aligned positionally. -/
theorem btrfs_label_alignment (s : Stats) (ms : List Metric)
    (h : updateBtrfsStats s = some ms) :
    ∀ m ∈ ms, m.labelNames.length = m.labelValues.length := by
  unfold updateBtrfsStats at h
  cases hb : buildBtrfsMetrics s with
  | none => rw [hb] at h; simp at h
  | some bms =>
    rw [hb, Option.map_some'] at h
    intro m hm
    rw [← Option.some.inj h] at hm
    rcases List.mem_map.1 hm with ⟨bm, hbm, hx⟩
    subst hx
    rw [bindMetric_labelNames, bindMetric_labelValues]
    simp [List.length_append, (shape_of_mem_build hb hbm).1]

/-- Witness for C7 at the first emitted metric of the sample snapshot. -/
theorem btrfs_label_alignment_witness :
    (sampleMetrics.headD ⟨"", "", [], [], 0⟩).labelNames.length =
      (sampleMetrics.headD ⟨"", "", [], [], 0⟩).labelValues.length :=
  btrfs_label_alignment sampleStats sampleMetrics rfl
    (sampleMetrics.headD ⟨"", "", [], [], 0⟩) (by decide)

/-- Claim C5: every emitted metric carries the base label names label and
uuid first, valued with the snapshot's label and uuid fields, with the
metric's extra label names and values appended after them. -/
theorem btrfs_base_labels (s : Stats) (ms : List Metric)
    (h : updateBtrfsStats s = some ms) :
    ∀ m ∈ ms, ∃ bm : btrfsMetric,
      m.labelNames = ["label", "uuid"] ++ bm.extraLabel ∧
      m.labelValues = [s.Label, s.UUID] ++ bm.extraLabelValue := by
  unfold updateBtrfsStats at h
  cases hb : buildBtrfsMetrics s with
  | none => rw [hb] at h; simp at h
  | some bms =>
    rw [hb, Option.map_some'] at h
    intro m hm
    rw [← Option.some.inj h] at hm
    rcases List.mem_map.1 hm with ⟨bm, _, hx⟩
    subst hx
    exact ⟨bm, bindMetric_labelNames s bm, bindMetric_labelValues s bm⟩

/-- Witness for C5 at the first emitted metric of the sample snapshot. -/
theorem btrfs_base_labels_witness :
    ∃ bm : btrfsMetric,
      (sampleMetrics.headD ⟨"", "", [], [], 0⟩).labelNames =
        ["label", "uuid"] ++ bm.extraLabel ∧
      (sampleMetrics.headD ⟨"", "", [], [], 0⟩).labelValues =
        [sampleStats.Label, sampleStats.UUID] ++ bm.extraLabelValue :=
  btrfs_base_labels sampleStats sampleMetrics rfl
    (sampleMetrics.headD ⟨"", "", [], [], 0⟩) (by decide)

/-- Claim C1: the number of emitted metrics is 2 (device count, global
reserve) plus one per device plus, per category, 1 reserved-bytes metric
plus 3 per present layout. -/
theorem btrfs_metric_count (s : Stats) (d md sy : AllocationStats)
    (ms : List Metric)
    (hd : s.Allocation.Data = some d) (hmd : s.Allocation.Metadata = some md)
    (hsy : s.Allocation.System = some sy) (h : updateBtrfsStats s = some ms) :
    ms.length = 2 + s.Devices.length + (1 + 3 * presentLayouts d)
      + (1 + 3 * presentLayouts md) + (1 + 3 * presentLayouts sy) := by
  unfold updateBtrfsStats at h
  cases hb : buildBtrfsMetrics s with
  | none => rw [hb] at h; simp at h
  | some bms =>
    rw [hb, Option.map_some'] at h
    rw [← Option.some.inj h, List.length_map]
    obtain ⟨dM, mM, sM, hgd, hgm, hgs, rfl⟩ := buildBtrfsMetrics_inv hb
    rw [hd] at hgd
    rw [hmd] at hgm
    rw [hsy] at hgs
    simp only [List.length_append, List.length_map, List.length_cons,
      List.length_nil, length_getAllocationStats _ _ _ hgd,
      length_getAllocationStats _ _ _ hgm, length_getAllocationStats _ _ _ hgs]

/-- Witness for C1 at the sample snapshot: 13 metrics. -/
theorem btrfs_metric_count_witness :
    sampleMetrics.length = 2 + sampleStats.Devices.length
      + (1 + 3 * presentLayouts sampleData)
      + (1 + 3 * presentLayouts sampleEmptyAlloc)
      + (1 + 3 * presentLayouts sampleEmptyAlloc) :=
  btrfs_metric_count sampleStats sampleData sampleEmptyAlloc sampleEmptyAlloc
    sampleMetrics rfl rfl rfl rfl

/-- Modelled from the spec: the three metric emissions (or none) that the
spec prescribes for one layout of one category — present layouts yield
used_bytes, total_bytes and ratio with extra labels type = category and
mode = layout; absent layouts yield nothing. Each emission is summarised
as (metric name, extra label names, extra label values). -/
def specLayoutBlock (cat l : String) (o : Option LayoutUsage) :
    List (String × List String × List String) :=
  if o.isSome then
    [("used_bytes", ["type", "mode"], [cat, l]),
     ("total_bytes", ["type", "mode"], [cat, l]),
     ("ratio", ["type", "mode"], [cat, l])]
  else []

/-- Modelled from the spec: the emission order of one category — the
reserved_bytes metric first, then the layouts in the fixed order single,
dup, raid0, raid1, raid5, raid6, raid10. -/
def specCategoryOrder (cat : String) (c : AllocationStats) :
    List (String × List String × List String) :=
  ("reserved_bytes", ["type"], [cat]) ::
    (specLayoutBlock cat "single" c.Single ++ specLayoutBlock cat "dup" c.Dup
      ++ specLayoutBlock cat "raid0" c.Raid0
      ++ specLayoutBlock cat "raid1" c.Raid1
      ++ specLayoutBlock cat "raid5" c.Raid5
      ++ specLayoutBlock cat "raid6" c.Raid6
      ++ specLayoutBlock cat "raid10" c.Raid10)

/-- Modelled from the spec: the full emission order of one snapshot —
device_count, global_rsv_size_bytes, one device_size per device in
snapshot device order, then the categories in the fixed order data,
metadata, system. -/
def specEmissionOrder (s : Stats) (d md sy : AllocationStats) :
    List (String × List String × List String) :=
  ("device_count", [], []) :: ("global_rsv_size_bytes", [], []) ::
    (s.Devices.map (fun p => ("device_size", ["device"], [p.1]))
      ++ specCategoryOrder "data" d ++ specCategoryOrder "metadata" md
      ++ specCategoryOrder "system" sy)

lemma map_shape_getLayoutStats (a l : String) (o : Option LayoutUsage) :
    (getLayoutStats a l o).map (fun m => (m.name, m.extraLabel, m.extraLabelValue))
      = specLayoutBlock a l o := by
  cases o <;> rfl

/-- Claim C2 (amended): the emission order is deterministic and fully
determined by the snapshot together with the device-map iteration order —
device_count, global_rsv_size_bytes, device_size per device in the
iteration order the map range yields, then the categories data, metadata,
system, each with reserved_bytes followed by the layouts in the fixed
order single, dup, raid0, raid1, raid5, raid6, raid10, with no sorting or
reordering. The original claim's "fully determined by the input" fails
because the device-map iteration order is not determined by the map (see
the counterexample). -/
theorem btrfs_emission_order (s : Stats) (d md sy : AllocationStats)
    (bms : List btrfsMetric)
    (hd : s.Allocation.Data = some d) (hmd : s.Allocation.Metadata = some md)
    (hsy : s.Allocation.System = some sy)
    (h : buildBtrfsMetrics s = some bms) :
    bms.map (fun m => (m.name, m.extraLabel, m.extraLabelValue))
      = specEmissionOrder s d md sy := by
  obtain ⟨dM, mM, sM, hgd, hgm, hgs, rfl⟩ := buildBtrfsMetrics_inv h
  rw [hd] at hgd
  rw [hmd] at hgm
  rw [hsy] at hgs
  rw [getAllocationStats_some_eq _ _ _ hgd, getAllocationStats_some_eq _ _ _ hgm,
    getAllocationStats_some_eq _ _ _ hgs]
  simp only [List.map_append, List.map_cons, List.map_nil, List.map_map,
    map_shape_getLayoutStats, specEmissionOrder, specCategoryOrder,
    Function.comp_def, List.cons_append, List.nil_append, List.append_assoc]

/-- Witness for C2 at the sample snapshot. -/
theorem btrfs_emission_order_witness :
    ((buildBtrfsMetrics sampleStats).getD []).map
        (fun m => (m.name, m.extraLabel, m.extraLabelValue))
      = specEmissionOrder sampleStats sampleData sampleEmptyAlloc sampleEmptyAlloc :=
  btrfs_emission_order sampleStats sampleData sampleEmptyAlloc sampleEmptyAlloc
    ((buildBtrfsMetrics sampleStats).getD []) rfl rfl rfl rfl

/-- Counterexample to claim C2 as stated: the two iteration orders of the
same two-device map (same label, uuid, allocation, permuted device
entries) yield different emission sequences, so the emission order is not
fully determined by the snapshot's map value alone. -/
theorem btrfs_emission_order_counterexample :
    sampleStats.Devices.Perm sampleStatsSwapped.Devices ∧
    ((buildBtrfsMetrics sampleStats).getD []).map
        (fun m => (m.name, m.extraLabel, m.extraLabelValue)) ≠
      ((buildBtrfsMetrics sampleStatsSwapped).getD []).map
        (fun m => (m.name, m.extraLabel, m.extraLabelValue)) :=
  ⟨by decide, by decide⟩

/-- Claim C3 (amended): two flattenings of the same snapshot — the same
device map, each run observing it in some iteration order — yield emission
sequences that are permutations of each other (identical multisets of
metric emissions); only the relative order of the device_size metrics can
differ between runs. -/
theorem btrfs_flatten_perm (s1 s2 : Stats) (hl : s1.Label = s2.Label)
    (hu : s1.UUID = s2.UUID) (ha : s1.Allocation = s2.Allocation)
    (hdev : s1.Devices.Perm s2.Devices) (ms1 ms2 : List Metric)
    (h1 : updateBtrfsStats s1 = some ms1) (h2 : updateBtrfsStats s2 = some ms2) :
    ms1.Perm ms2 := by
  unfold updateBtrfsStats at h1 h2
  cases hb1 : buildBtrfsMetrics s1 with
  | none => rw [hb1] at h1; simp at h1
  | some bms1 =>
    rw [hb1, Option.map_some'] at h1
    cases hb2 : buildBtrfsMetrics s2 with
    | none => rw [hb2] at h2; simp at h2
    | some bms2 =>
      rw [hb2, Option.map_some'] at h2
      rw [← Option.some.inj h1, ← Option.some.inj h2]
      have hbind : bindMetric s2 = bindMetric s1 := by
        funext m
        simp only [bindMetric]
        rw [← hl, ← hu]
      rw [hbind]
      refine List.Perm.map (bindMetric s1) ?_
      obtain ⟨dM1, mM1, sM1, hgd1, hgm1, hgs1, rfl⟩ := buildBtrfsMetrics_inv hb1
      obtain ⟨dM2, mM2, sM2, hgd2, hgm2, hgs2, rfl⟩ := buildBtrfsMetrics_inv hb2
      rw [← ha] at hgd2 hgm2 hgs2
      have e1 : dM1 = dM2 := Option.some.inj (hgd1.symm.trans hgd2)
      have e2 : mM1 = mM2 := Option.some.inj (hgm1.symm.trans hgm2)
      have e3 : sM1 = sM2 := Option.some.inj (hgs1.symm.trans hgs2)
      subst e1
      subst e2
      subst e3
      refine List.Perm.append (List.Perm.append (List.Perm.append ?_
        (List.Perm.refl dM1)) (List.Perm.refl mM1)) (List.Perm.refl sM1)
      rw [hdev.length_eq, ha]
      exact List.Perm.append (List.Perm.refl _) (hdev.map _)

/-- Witness for the amended C3: the two observed iteration orders of the
sample device map flatten to permutations of each other. -/
theorem btrfs_flatten_perm_witness :
    ((updateBtrfsStats sampleStats).getD []).Perm
      ((updateBtrfsStats sampleStatsSwapped).getD []) :=
  btrfs_flatten_perm sampleStats sampleStatsSwapped rfl rfl rfl (by decide)
    ((updateBtrfsStats sampleStats).getD [])
    ((updateBtrfsStats sampleStatsSwapped).getD []) rfl rfl

/-- Counterexample to claim C3 as stated: flattening the same two-device
map twice, the two runs observing the map's unspecified iteration order
differently, yields two sequences that are not identical. -/
theorem btrfs_flatten_two_runs_counterexample :
    sampleStats.Label = sampleStatsSwapped.Label ∧
    sampleStats.UUID = sampleStatsSwapped.UUID ∧
    sampleStats.Allocation = sampleStatsSwapped.Allocation ∧
    sampleStats.Devices.Perm sampleStatsSwapped.Devices ∧
    updateBtrfsStats sampleStats ≠ updateBtrfsStats sampleStatsSwapped :=
  ⟨rfl, rfl, rfl, by decide, by decide⟩
